import Mathlib

/-!
Shallow embedding of the HTML route handlers of `scribe`
(`src/backend/src/scribe/routers/pages.py`) together with the session
store they manipulate, and proofs of the specification claims about
them.

External collaborators (the Slack client, the translator, the
transcriber, the file system, template rendering) are modelled as
oracles passed to the handlers: each handler is a pure function of the
request data, the session, and the outcome each collaborator would
produce when called.  Template rendering is modelled symbolically: a
rendered payload is the template name applied to its context.
-/

set_option autoImplicit false

namespace Scribe

/-- Generic association-list lookup (first binding wins), mirroring a
Python `dict` read. -/
def assocLookup {β : Type} : List (String × β) → String → Option β
  | [], _ => none
  | (k', v) :: rest, k => if k' = k then some v else assocLookup rest k

/-- Generic association-list update, mirroring `d[k] = v` on a Python
`dict`: replace the first binding of `k` if present, otherwise append
the new binding at the end. -/
def assocSet {β : Type} : List (String × β) → String → β → List (String × β)
  | [], k, v => [(k, v)]
  | (k', v') :: rest, k, v =>
    if k' = k then (k, v) :: rest else (k', v') :: assocSet rest k v

/-- Generic association-list removal, mirroring a `dict` key deletion;
idempotent when the key is absent. -/
def assocDelete {β : Type} : List (String × β) → String → List (String × β)
  | [], _ => []
  | (k', v) :: rest, k =>
    if k' = k then assocDelete rest k else (k', v) :: assocDelete rest k

/-- Modelled from the spec: `NotificationType` of
`scribe/models/models.py` (not under `src/`), spec section 3: success,
error or informational. -/
inductive NotificationType where
  | success
  | error
  | info
deriving DecidableEq, Repr

/-- Modelled from the spec: the `Notification` model of
`scribe/models/models.py` (not under `src/`), spec section 3: kind,
title and message, immutable once constructed. -/
structure Notification where
  type : NotificationType
  title : String
  message : String
deriving DecidableEq, Repr

/-- Modelled from the spec: the `Recording` model of
`scribe/models/models.py` (not under `src/`), spec section 3: opaque id,
on-disk file path, and an optional transcription that is absent until
transcription succeeds. -/
structure Recording where
  id : String
  file_path : String
  transcription : Option String := none
deriving DecidableEq, Repr

/-- Modelled from the spec: the `User` model of
`scribe/models/models.py` (not under `src/`); only `first_name` is read
by the routes under verification (the welcome notification). -/
structure User where
  first_name : String
deriving DecidableEq, Repr

/-- The kinds of values the routes in `pages.py` store in session
attributes: strings (state, nonce, access token), a user, a team, a
channel list, the notification mailbox, and the recording registry. -/
inductive Value where
  | str (s : String)
  | user (u : User)
  | team (t : String)
  | channels (cs : List String)
  | notifs (ns : List Notification)
  | recs (rs : List (String × Recording))
deriving DecidableEq, Repr

/-- Modelled from the spec: the `Session` of
`scribe/session/session.py` (not under `src/`), spec sections 3 and
4.2: an opaque id plus an open string-keyed attribute mapping. -/
structure Session where
  id : String
  attributes : List (String × Value)
deriving DecidableEq, Repr

/-- Modelled from the spec: `Session.get(key)` (spec section 4.2)
returns the current value or the "not set" result; it never fails. -/
def Session.get (s : Session) (key : String) : Option Value :=
  assocLookup s.attributes key

/-- Modelled from the spec: `Session.set(key, value)` (spec section
4.2) replaces the value, visible to subsequent reads. -/
def Session.set (s : Session) (key : String) (v : Value) : Session :=
  { s with attributes := assocSet s.attributes key v }

/-- Modelled from the spec: `Session.delete(key)` (spec section 4.2)
removes the key; idempotent when already absent. -/
def Session.delete (s : Session) (key : String) : Session :=
  { s with attributes := assocDelete s.attributes key }

/-- Modelled from the spec: `Session.append(key, items)` (spec section
4.2) treats the stored value as an ordered sequence, creating it empty
if absent, and appends `items` at its end.  The routes use it only for
the notification mailbox, so the sequence is a notification list. -/
def Session.append (s : Session) (key : String) (items : List Notification) : Session :=
  let cur := match s.get key with
    | some (.notifs l) => l
    | _ => []
  s.set key (.notifs (cur ++ items))

/-- The session's notification mailbox (`session.get("notifications")`,
empty when unset). -/
def sessionNotifications (s : Session) : List Notification :=
  match s.get "notifications" with
  | some (.notifs l) => l
  | _ => []

/-- The session's recording registry
(`session.get("recordings", \x7b\x7d)`, empty when unset). -/
def sessionRecordings (s : Session) : List (String × Recording) :=
  match s.get "recordings" with
  | some (.recs m) => m
  | _ => []

/-- A rendered turbo-stream template: the template of `templates/streams/`
applied to the context the handler passes it.  Rendering itself is an
external collaborator, so payloads are kept symbolic. -/
inductive StreamTemplate where
  | send_notification (n : Notification)
  | upload_audio (r : Recording)
  | message_published (n : Notification)
  | transcription_complete (r : Recording)
deriving DecidableEq, Repr

/-- A `TemplateResponse` as built by the handlers: the rendered template
plus the HTTP status code passed alongside it. -/
structure TemplateResponse where
  template : StreamTemplate
  status_code : Nat
deriving DecidableEq, Repr

/-- The outcome of the external `text.transcribe(file_path)` call
(spec section 6): returned text, the recoverable `RuntimeError`, or any
other exception. -/
inductive TranscribeOutcome where
  | ok (t : String)
  | runtimeError (msg : String)
  | otherError (msg : String)
deriving DecidableEq, Repr

/-- One server-sent event as yielded by the generator: the dict
`\x7b"event": "message", "data": data\x7d` with the rendered data. -/
structure SseEvent where
  event : String
  data : StreamTemplate
deriving DecidableEq, Repr

/-- The inline error notification built in
`transcription_event_generator`'s `except RuntimeError` branch. -/
def transcribeErrorNotification : Notification :=
  { type := .error
    title := "Error transcribing audio"
    message := "We\x27re sorry, your recording could not be processed." }

/-- `transcription_event_generator(request, recording)` of `pages.py`
(lines 202-234).  `disconnected` is the value of
`await request.is_disconnected()` observed at the top of the loop;
`outcome` is what `text.transcribe(recording.file_path)` does when
invoked.  Every path of the loop body ends in `break`, so the loop runs
once.  The result is the finite event sequence together with the final
state of the mutable `recording`; `Except.error` models an exception
escaping the generator (only `RuntimeError` is caught). -/
def transcription_event_generator (disconnected : Bool)
    (outcome : TranscribeOutcome) (recording : Recording) :
    Except String (List SseEvent × Recording) :=
  if disconnected then
    .ok ([], recording)
  else
    match outcome with
    | .ok t =>
      let recording := { recording with transcription := some t }
      .ok ([{ event := "message", data := .transcription_complete recording }],
           recording)
    | .runtimeError _ =>
      .ok ([{ event := "message", data := .send_notification transcribeErrorNotification }],
           recording)
    | .otherError msg => .error msg

/-- The notification built in `transcribe_recording` when the recording
id is not in the registry. -/
def recordingNotFoundNotification : Notification :=
  { type := .error
    title := "Recording not found"
    message := "We could not find the recording file requested." }

/-- The response of `transcribe_recording`: the 404 notification
response, or the `EventSourceResponse` wrapping the (not yet run)
event generator for the found recording. -/
inductive TranscribeRecordingResponse where
  | notFound (resp : TemplateResponse)
  | eventSource (recording : Recording)
deriving DecidableEq, Repr

/-- `transcribe_recording(request, recording_id, ...)` of `pages.py`
(lines 314-354): look the id up in the session's recording registry;
absent (Python `recordings.get(recording_id, None)` returning `None`)
yields a 404 notification response, otherwise the event stream response
is built around the recording.  The event generator is constructed, and
the transcriber invoked, only in the `eventSource` branch. -/
def transcribe_recording (recording_id : String) (s : Session) :
    TranscribeRecordingResponse :=
  match assocLookup (sessionRecordings s) recording_id with
  | none =>
    .notFound { template := .send_notification recordingNotFoundNotification
                status_code := 404 }
  | some recording => .eventSource recording

/-- An uploaded file as the `upload` handler sees it: the declared
content type and the bytes `await audio_file.read()` returns. -/
structure UploadedFile where
  content_type : String
  content : List Nat
deriving DecidableEq, Repr

/-- The media-type allow-list of `upload` (`pages.py` line 252). -/
def allowed_mime_types : List String :=
  ["audio/mpeg", "audio/ogg", "audio/wav", "audio/flac"]

/-- `os.path.join` for the relative second arguments `upload` uses: a
separator is inserted unless the first part already ends in one. -/
def pathJoin (a b : String) : String :=
  if a.endsWith "/" then a ++ b else a ++ "/" ++ b

/-- The notification built in `upload` for a disallowed content type. -/
def invalidFileTypeNotification : Notification :=
  { type := .error
    title := "Invalid file type"
    message := "The wrong type of audio file was submitted." }

/-- The notification built in `upload`'s `except Exception` branch. -/
def uploadErrorNotification : Notification :=
  { type := .error
    title := "Error processing recording"
    message := "An error occurred while uploading your recording." }

/-- The full outcome of the `upload` handler: the response, the session
after the handler, and the file system after the handler (a mapping
from path to written bytes). -/
structure UploadResult where
  response : TemplateResponse
  session : Session
  fs : List (String × List Nat)
deriving DecidableEq, Repr

/-- `upload(audio_file, ...)` of `pages.py` (lines 237-294).
`file_id` is the fresh `uuid4()`, `uploadPath` is
`settings.UPLOAD_PATH`, and `writeOk` is whether the whole-buffer disk
write succeeds (its failure raises into the `except Exception` branch
before anything is persisted or registered).  On success the file is
written under `<uploadPath>/<session id>/<file_id>.ogg`, and a
`Recording` is stored in the registry under its id. -/
def upload (audio_file : UploadedFile) (file_id : String)
    (uploadPath : String) (writeOk : Bool) (s : Session)
    (fs : List (String × List Nat)) : UploadResult :=
  if audio_file.content_type ∉ allowed_mime_types then
    { response := { template := .send_notification invalidFileTypeNotification
                    status_code := 415 }
      session := s
      fs := fs }
  else
    let parent_dir := pathJoin uploadPath s.id
    let file_path := pathJoin parent_dir (file_id ++ ".ogg")
    if writeOk then
      let fs := fs ++ [(file_path, audio_file.content)]
      let recording : Recording := { id := file_id, file_path := file_path }
      let recordings := assocSet (sessionRecordings s) recording.id recording
      let s := s.set "recordings" (.recs recordings)
      { response := { template := .upload_audio recording, status_code := 303 }
        session := s
        fs := fs }
    else
      { response := { template := .send_notification uploadErrorNotification
                      status_code := 500 }
        session := s
        fs := fs }

/-- A failure of one of the Slack collaborator calls in `read_code`:
the `SlackError` the handler names, or any other exception (the
`except Exception` branch). -/
inductive SlackFailure where
  | slackError (msg : String)
  | otherError (msg : String)
deriving DecidableEq, Repr

/-- The outcomes of the external Slack calls `read_code` makes, in the
order the handler makes them: `slack.access_token(code)`,
`client.user()`, `client.team()`, `client.channels()`. -/
structure SlackOracle where
  access_token : Except SlackFailure String
  user : Except SlackFailure User
  team : Except SlackFailure String
  channels : Except SlackFailure (List String)

/-- A `RedirectResponse` as returned by `read_code`. -/
inductive AuthResponse where
  | redirect (location : String)
deriving DecidableEq, Repr

/-- The full outcome of `read_code`: the session after the handler, the
response, and the list of Slack collaborator calls actually made. -/
structure AuthResult where
  session : Session
  response : AuthResponse
  slackCalls : List String
deriving Repr

/-- The login-error notification `read_code` enqueues on each failure
branch (identical text in all three). -/
def loginErrorNotification : Notification :=
  { type := .error
    title := "Login error"
    message := "An error occurred logging in. Please try again." }

/-- The welcome notification `read_code` enqueues on success. -/
def welcomeNotification (u : User) : Notification :=
  { type := .success
    title := "Welcome back!"
    message := "Welcome back to Scribe " ++ u.first_name ++ "." }

/-- Python truthiness of the optional attribute value `session.get`
returns: `None` and empty collections and strings are falsy. -/
def pyTruthy : Option Value → Bool
  | none => false
  | some (.str s) => !s.isEmpty
  | some (.user _) => true
  | some (.team _) => true
  | some (.channels cs) => !cs.isEmpty
  | some (.notifs ns) => !ns.isEmpty
  | some (.recs rs) => !rs.isEmpty

/-- Python `==` between the stored attribute value and the URL `state`
string: only a stored string can compare equal. -/
def pyEqStr : Option Value → String → Bool
  | some (.str s), t => s == t
  | _, _ => false

/-- The `finally` block of `read_code` (lines 197-199): delete the
session's `state` and `nonce`. -/
def authFinally (s : Session) : Session :=
  (s.delete "state").delete "nonce"

/-- A failure branch of `read_code`'s `try` (both `except SlackError`
and `except Exception` enqueue the login-error notification and
redirect to `/login`), followed by the `finally` deletes. -/
def authFailure (s : Session) (calls : List String) : AuthResult :=
  { session := authFinally (s.append "notifications" [loginErrorNotification])
    response := .redirect "/login"
    slackCalls := calls }

/-- `read_code(code, state, session)` of `pages.py` (lines 117-199).
The state check `if not session_state or session_state != state` takes
the mismatch branch when the stored state is unset, falsy, or unequal
to the URL `state`; that branch deletes `state` and `nonce`, enqueues a
login-error notification, and redirects to `/login` without any Slack
call.  Otherwise the `try` body runs the Slack calls in order,
interleaved with the session writes of the source, and the `finally`
deletes `state` and `nonce` on every exit path of the `try`. -/
def read_code (state : String) (oracle : SlackOracle) (s : Session) :
    AuthResult :=
  let session_state := s.get "state"
  if !pyTruthy session_state || !pyEqStr session_state state then
    let s := (s.delete "state").delete "nonce"
    let s := s.append "notifications" [loginErrorNotification]
    { session := s, response := .redirect "/login", slackCalls := [] }
  else
    match oracle.access_token with
    | .error _ => authFailure s ["slack.access_token"]
    | .ok access_token =>
      match oracle.user with
      | .error _ => authFailure s ["slack.access_token", "client.user"]
      | .ok u =>
        let s := s.set "access_token" (.str access_token)
        let s := s.set "user" (.user u)
        match oracle.team with
        | .error _ =>
          authFailure s ["slack.access_token", "client.user", "client.team"]
        | .ok team =>
          let s := s.set "team" (.team team)
          match oracle.channels with
          | .error _ =>
            authFailure s
              ["slack.access_token", "client.user", "client.team", "client.channels"]
          | .ok channels =>
            let s := s.set "channels" (.channels channels)
            let s := s.append "notifications" [welcomeNotification u]
            { session := authFinally s
              response := .redirect "/"
              slackCalls :=
                ["slack.access_token", "client.user", "client.team", "client.channels"] }

/-- A failure of the external `text.translate(message, target)` call:
the `TranslationException` named by `pages.py`, or any other
exception. -/
inductive TranslateError where
  | translationException
  | otherError (msg : String)
deriving DecidableEq, Repr

/-- The `post_image` upload as the `publish` handler reads it: only its
byte size is consulted (`post_image.size`). -/
structure Image where
  size : Nat
deriving DecidableEq, Repr

/-- The outcome of the external `client.publish(...)` call: success,
the `SlackError` named by `pages.py`, or any other exception. -/
inductive ClientPublishOutcome where
  | ok
  | slackError (msg : String)
  | otherError (msg : String)
deriving DecidableEq, Repr

/-- One invocation of `client.publish(messages, post_image,
pin_to_channel, notify_channel)` with the arguments it received. -/
structure PublishCall where
  messages : List (String × String)
  image : Option Image
  pin : Bool
  notify : Bool
deriving DecidableEq, Repr

/-- The full outcome of the `publish` handler: the response and the
list of posting-client invocations made. -/
structure PublishResult where
  response : TemplateResponse
  calls : List PublishCall
deriving DecidableEq, Repr

/-- The notification of `publish`'s `except TranslationException`
branch. -/
def translationErrorNotification : Notification :=
  { type := .error
    title := "Translation Error"
    message := "An error occurred while translating your message." }

/-- The notification of `publish`'s `except SlackError` branch. -/
def postingErrorNotification : Notification :=
  { type := .error
    title := "Posting Error"
    message := "An error occurred while posting your message to Slack." }

/-- The notification of `publish`'s `except Exception` branch. -/
def unknownErrorNotification : Notification :=
  { type := .error
    title := "Unknown Error"
    message := "An unknown error occurred.." }

/-- The success notification of `publish`. -/
def messagePublishedNotification : Notification :=
  { type := .success
    title := "Message published"
    message := "Your message has been translated and published" }

/-- The dict comprehension of `publish` (lines 383-386): translate the
message for each target language in order; the first failing call
raises out of the comprehension. -/
def translateAll (translate : String → Except TranslateError String) :
    List String → Except TranslateError (List (String × String))
  | [] => .ok []
  | t :: ts =>
    match translate t with
    | .error e => .error e
    | .ok tr =>
      match translateAll translate ts with
      | .error e => .error e
      | .ok rest => .ok ((t, tr) :: rest)

/-- Python dict union `a | b`: the entries of `a` in order, with values
overridden by `b` on shared keys, then the entries of `b` whose keys
are not in `a`, in order. -/
def dictUnion (a b : List (String × String)) : List (String × String) :=
  a.map (fun p =>
    match assocLookup b p.1 with
    | some v => (p.1, v)
    | none => p) ++
  b.filter (fun p => (assocLookup a p.1).isNone)

/-- Python `str.strip()` as `publish` applies it to the formatted
message: drop leading and trailing whitespace. -/
def pyStrip (s : String) : String :=
  ⟨(((s.data.dropWhile Char.isWhitespace).reverse.dropWhile
      Char.isWhitespace).reverse)⟩

/-- `publish(formatted_message, post_image, ...)` of `pages.py`
(lines 357-455).  `sourceLang` is `settings.SOURCE_LANGUAGE`, `targets`
enumerates `settings.TARGET_LANGUAGES` in iteration order, `translate`
is the outcome `text.translate(message, target)` produces for each
target, and `clientOutcome` is what `client.publish(...)` does when
invoked.  A `None` `post_image` makes `post_image.size` raise an
`AttributeError`, which the `except Exception` branch turns into the
unknown-error response before the client is invoked.  An image of size
zero is replaced by `None`.  Each `except` branch maps to its response
exactly as in the source. -/
def publish (formatted_message : String) (post_image : Option Image)
    (pin_to_channel notify_channel : Bool) (sourceLang : String)
    (targets : List String)
    (translate : String → String → Except TranslateError String)
    (clientOutcome : ClientPublishOutcome) : PublishResult :=
  let message := pyStrip formatted_message
  match translateAll (translate message) targets with
  | .error .translationException =>
    { response := { template := .send_notification translationErrorNotification
                    status_code := 500 }
      calls := [] }
  | .error (.otherError _) =>
    { response := { template := .send_notification unknownErrorNotification
                    status_code := 500 }
      calls := [] }
  | .ok translated =>
    let messages := dictUnion [(sourceLang, message)] translated
    match post_image with
    | none =>
      { response := { template := .send_notification unknownErrorNotification
                      status_code := 500 }
        calls := [] }
    | some img =>
      let image := if img.size = 0 then none else some img
      let call : PublishCall :=
        { messages := messages
          image := image
          pin := pin_to_channel
          notify := notify_channel }
      match clientOutcome with
      | .ok =>
        { response := { template := .message_published messagePublishedNotification
                        status_code := 303 }
          calls := [call] }
      | .slackError _ =>
        { response := { template := .send_notification postingErrorNotification
                        status_code := 500 }
          calls := [call] }
      | .otherError _ =>
        { response := { template := .send_notification unknownErrorNotification
                        status_code := 500 }
          calls := [call] }

theorem assocLookup_delete_self {β : Type} (l : List (String × β)) (k : String) :
    assocLookup (assocDelete l k) k = none := by
  induction l with
  | nil => rfl
  | cons p rest ih =>
    obtain ⟨k', v⟩ := p
    by_cases h : k' = k
    · simp only [assocDelete, if_pos h, ih]
    · simp only [assocDelete, if_neg h, assocLookup, ih]

theorem assocLookup_delete_ne {β : Type} (l : List (String × β)) (k k' : String)
    (h : k ≠ k') : assocLookup (assocDelete l k) k' = assocLookup l k' := by
  induction l with
  | nil => rfl
  | cons p rest ih =>
    obtain ⟨k₀, v⟩ := p
    by_cases h₀ : k₀ = k
    · subst h₀
      simp [assocDelete, assocLookup, if_neg h, ih]
    · simp only [assocDelete, if_neg h₀, assocLookup, ih]

theorem assocLookup_set_self {β : Type} (l : List (String × β)) (k : String) (v : β) :
    assocLookup (assocSet l k v) k = some v := by
  induction l with
  | nil => simp [assocSet, assocLookup]
  | cons p rest ih =>
    obtain ⟨k₀, v₀⟩ := p
    by_cases h₀ : k₀ = k
    · simp [assocSet, assocLookup, h₀]
    · simp only [assocSet, if_neg h₀, assocLookup, if_neg h₀, ih]

theorem assocLookup_set_ne {β : Type} (l : List (String × β)) (k k' : String) (v : β)
    (h : k ≠ k') : assocLookup (assocSet l k v) k' = assocLookup l k' := by
  induction l with
  | nil => simp only [assocSet, assocLookup, if_neg h]
  | cons p rest ih =>
    obtain ⟨k₀, v₀⟩ := p
    by_cases h₀ : k₀ = k
    · subst h₀
      simp only [assocSet, if_pos rfl, assocLookup, if_neg h]
    · simp only [assocSet, if_neg h₀, assocLookup, ih]

theorem Session.get_delete_self (s : Session) (k : String) : (s.delete k).get k = none :=
  assocLookup_delete_self s.attributes k

theorem Session.get_delete_ne (s : Session) (k k' : String) (h : k ≠ k') :
    (s.delete k).get k' = s.get k' :=
  assocLookup_delete_ne s.attributes k k' h

theorem Session.get_set_self (s : Session) (k : String) (v : Value) :
    (s.set k v).get k = some v :=
  assocLookup_set_self s.attributes k v

theorem Session.get_set_ne (s : Session) (k k' : String) (v : Value) (h : k ≠ k') :
    (s.set k v).get k' = s.get k' :=
  assocLookup_set_ne s.attributes k k' v h

theorem Session.get_append_ne (s : Session) (k k' : String) (items : List Notification)
    (h : k ≠ k') : (s.append k items).get k' = s.get k' :=
  Session.get_set_ne _ k k' _ h

/-- After `Session.append key items` the stored sequence under `key` is
the previous sequence (empty when unset or of another shape) extended by
`items`. -/
theorem Session.get_append_self (s : Session) (k : String) (items : List Notification) :
    (s.append k items).get k =
      some (.notifs ((match s.get k with
        | some (.notifs l) => l
        | _ => []) ++ items)) :=
  Session.get_set_self _ k _

theorem authFinally_get_state (s : Session) : (authFinally s).get "state" = none := by
  unfold authFinally
  rw [Session.get_delete_ne _ "nonce" "state" (by decide), Session.get_delete_self]

theorem authFinally_get_nonce (s : Session) : (authFinally s).get "nonce" = none :=
  Session.get_delete_self _ "nonce"

/-- C2: on every exit path of the auth-callback handler `read_code`
(state mismatch, successful token exchange, `SlackError`, or any other
exception in the `try` body), the session's `state` and `nonce`
attributes are deleted by the time the response is returned. -/
theorem read_code_clears_state_and_nonce (state : String) (oracle : SlackOracle)
    (s : Session) :
    (read_code state oracle s).session.get "state" = none ∧
    (read_code state oracle s).session.get "nonce" = none := by
  obtain ⟨a, u, t, c⟩ := oracle
  unfold read_code
  dsimp only
  split
  · constructor
    · rw [Session.get_append_ne _ "notifications" "state" _ (by decide),
        Session.get_delete_ne _ "nonce" "state" (by decide), Session.get_delete_self]
    · rw [Session.get_append_ne _ "notifications" "nonce" _ (by decide),
        Session.get_delete_self]
  · cases a with
    | error e => exact ⟨authFinally_get_state _, authFinally_get_nonce _⟩
    | ok tok =>
      cases u with
      | error e => exact ⟨authFinally_get_state _, authFinally_get_nonce _⟩
      | ok uu =>
        cases t with
        | error e => exact ⟨authFinally_get_state _, authFinally_get_nonce _⟩
        | ok tm =>
          cases c with
          | error e => exact ⟨authFinally_get_state _, authFinally_get_nonce _⟩
          | ok ch => exact ⟨authFinally_get_state _, authFinally_get_nonce _⟩

/-- C5: on an auth callback whose URL `state` differs from the stored
session state (or whose session has no stored state), `read_code`
clears the `state` and `nonce` attributes, appends the login-error
notification to the mailbox, redirects to the sign-in page, and makes
no Slack call. -/
theorem read_code_state_mismatch (state : String) (oracle : SlackOracle) (s : Session)
    (h : s.get "state" = none ∨
      ∃ t, s.get "state" = some (.str t) ∧ t ≠ state) :
    (read_code state oracle s).session.get "state" = none ∧
    (read_code state oracle s).session.get "nonce" = none ∧
    sessionNotifications (read_code state oracle s).session =
      sessionNotifications s ++ [loginErrorNotification] ∧
    (read_code state oracle s).response = .redirect "/login" ∧
    (read_code state oracle s).slackCalls = [] := by
  have hc : (!pyTruthy (s.get "state") || !pyEqStr (s.get "state") state) = true := by
    rcases h with h | ⟨t, ht, hne⟩
    · rw [h]; rfl
    · rw [ht]
      simp only [pyEqStr, Bool.or_eq_true, Bool.not_eq_eq_eq_not, Bool.not_true,
        beq_eq_false_iff_ne, ne_eq]
      exact Or.inr hne
  unfold read_code
  dsimp only
  rw [if_pos hc]
  refine ⟨?_, ?_, ?_, rfl, rfl⟩
  · rw [Session.get_append_ne _ "notifications" "state" _ (by decide),
      Session.get_delete_ne _ "nonce" "state" (by decide), Session.get_delete_self]
  · rw [Session.get_append_ne _ "notifications" "nonce" _ (by decide),
      Session.get_delete_self]
  · unfold sessionNotifications
    rw [Session.get_append_self,
      Session.get_delete_ne _ "nonce" "notifications" (by decide),
      Session.get_delete_ne _ "state" "notifications" (by decide)]

/-- Witness for the C5 theorem at a concrete session whose stored state
is `"X"` while the URL state is `"Y"`. -/
theorem read_code_state_mismatch_witness :
    (read_code "Y"
      { access_token := .ok "tok", user := .ok { first_name := "Jo" },
        team := .ok "T", channels := .ok [] }
      { id := "s1", attributes := [("state", .str "X"), ("nonce", .str "N")] }).session.get
        "state" = none ∧
    (read_code "Y"
      { access_token := .ok "tok", user := .ok { first_name := "Jo" },
        team := .ok "T", channels := .ok [] }
      { id := "s1", attributes := [("state", .str "X"), ("nonce", .str "N")] }).session.get
        "nonce" = none ∧
    sessionNotifications
      (read_code "Y"
        { access_token := .ok "tok", user := .ok { first_name := "Jo" },
          team := .ok "T", channels := .ok [] }
        { id := "s1", attributes := [("state", .str "X"), ("nonce", .str "N")] }).session =
      sessionNotifications
        { id := "s1", attributes := [("state", .str "X"), ("nonce", .str "N")] } ++
        [loginErrorNotification] ∧
    (read_code "Y"
      { access_token := .ok "tok", user := .ok { first_name := "Jo" },
        team := .ok "T", channels := .ok [] }
      { id := "s1", attributes := [("state", .str "X"), ("nonce", .str "N")] }).response =
      .redirect "/login" ∧
    (read_code "Y"
      { access_token := .ok "tok", user := .ok { first_name := "Jo" },
        team := .ok "T", channels := .ok [] }
      { id := "s1", attributes := [("state", .str "X"), ("nonce", .str "N")] }).slackCalls =
      [] :=
  read_code_state_mismatch "Y"
    { access_token := .ok "tok", user := .ok { first_name := "Jo" },
      team := .ok "T", channels := .ok [] }
    { id := "s1", attributes := [("state", .str "X"), ("nonce", .str "N")] }
    (Or.inr ⟨"X", rfl, by decide⟩)

/-- C1: the transcription event generator yields zero events when the
request is already disconnected at the top of the loop; on a connected
request it yields exactly one event before the sequence ends — the
rendered transcription-complete payload when the Transcriber returns
text, or the rendered error-notification payload when it raises the
recoverable `RuntimeError`. -/
theorem transcription_stream_single_shot (outcome : TranscribeOutcome)
    (rec : Recording) :
    transcription_event_generator true outcome rec = .ok ([], rec) ∧
    (∀ t, outcome = .ok t →
      transcription_event_generator false outcome rec =
        .ok ([{ event := "message",
                data := .transcription_complete { rec with transcription := some t } }],
             { rec with transcription := some t })) ∧
    (∀ m, outcome = .runtimeError m →
      transcription_event_generator false outcome rec =
        .ok ([{ event := "message",
                data := .send_notification transcribeErrorNotification }], rec)) := by
  refine ⟨rfl, ?_, ?_⟩
  · rintro t rfl
    rfl
  · rintro m rfl
    rfl

/-- Witness for the C1 theorem: a connected request with a successful
transcription yields exactly the single success event. -/
theorem transcription_stream_single_shot_witness :
    transcription_event_generator false (.ok "hello")
      { id := "r1", file_path := "up/s1/r1.ogg", transcription := none } =
      .ok ([{ event := "message",
              data := .transcription_complete
                { id := "r1", file_path := "up/s1/r1.ogg", transcription := some "hello" } }],
           { id := "r1", file_path := "up/s1/r1.ogg", transcription := some "hello" }) :=
  (transcription_stream_single_shot (.ok "hello")
    { id := "r1", file_path := "up/s1/r1.ogg", transcription := none }).2.1 "hello" rfl

/-- C6: when the transcription call succeeds on a connected request,
the Recording's transcription field is set to the returned text, and
the single produced event renders that same updated Recording. -/
theorem transcription_success_sets_transcription (t : String) (rec : Recording) :
    transcription_event_generator false (.ok t) rec =
      .ok ([{ event := "message",
              data := .transcription_complete { rec with transcription := some t } }],
           { rec with transcription := some t }) := rfl

/-- C9: a streaming transcription request whose recording id is absent
from the session's recording registry gets the 404 not-found
notification response; the event generator (and with it the
Transcriber) is only reached in the `eventSource` branch. -/
theorem transcribe_recording_not_found (recording_id : String) (s : Session)
    (h : assocLookup (sessionRecordings s) recording_id = none) :
    transcribe_recording recording_id s =
      .notFound { template := .send_notification recordingNotFoundNotification
                  status_code := 404 } := by
  unfold transcribe_recording
  rw [h]

/-- Witness for the C9 theorem: a session that never registered any
recording answers a never-issued id with the 404 response. -/
theorem transcribe_recording_not_found_witness :
    transcribe_recording "never-issued" { id := "s1", attributes := [] } =
      .notFound { template := .send_notification recordingNotFoundNotification
                  status_code := 404 } :=
  transcribe_recording_not_found "never-issued" { id := "s1", attributes := [] } rfl

theorem sessionRecordings_set (s : Session) (rs : List (String × Recording)) :
    sessionRecordings (s.set "recordings" (.recs rs)) = rs := by
  unfold sessionRecordings
  rw [Session.get_set_self]

/-- C4: `upload` rejects a payload whose declared media type is outside
the allow-list with the 415 error-notification response, persisting
nothing and registering no Recording; a payload declared as one of the
four allowed audio types (with the disk write succeeding) is persisted
and a new Recording is registered in the session's recording registry,
retrievable by the returned id from the same Session. -/
theorem upload_validates_and_registers (audio_file : UploadedFile)
    (file_id uploadPath : String) (writeOk : Bool) (s : Session)
    (fs : List (String × List Nat)) :
    (audio_file.content_type ∉ allowed_mime_types →
      upload audio_file file_id uploadPath writeOk s fs =
        { response := { template := .send_notification invalidFileTypeNotification
                        status_code := 415 }
          session := s
          fs := fs }) ∧
    (audio_file.content_type ∈ allowed_mime_types → writeOk = true →
      (upload audio_file file_id uploadPath writeOk s fs).response =
        { template := .upload_audio
            { id := file_id
              file_path := pathJoin (pathJoin uploadPath s.id) (file_id ++ ".ogg")
              transcription := none }
          status_code := 303 } ∧
      (upload audio_file file_id uploadPath writeOk s fs).fs =
        fs ++ [(pathJoin (pathJoin uploadPath s.id) (file_id ++ ".ogg"),
                audio_file.content)] ∧
      assocLookup
        (sessionRecordings (upload audio_file file_id uploadPath writeOk s fs).session)
        file_id =
        some { id := file_id
               file_path := pathJoin (pathJoin uploadPath s.id) (file_id ++ ".ogg")
               transcription := none }) := by
  constructor
  · intro hmime
    unfold upload
    rw [if_pos hmime]
  · intro hmime hwrite
    subst hwrite
    unfold upload
    rw [if_neg (fun hn => hn hmime)]
    simp only [eq_self_iff_true, if_true]
    refine ⟨trivial, trivial, ?_⟩
    rw [sessionRecordings_set, assocLookup_set_self]

/-- Witness for the C4 theorem: a `application/pdf` payload is rejected
leaving session and disk untouched, and an `audio/flac` payload is
persisted and registered retrievably. -/
theorem upload_validates_and_registers_witness :
    (upload { content_type := "application/pdf", content := [1, 2] } "rid" "uploads"
        true { id := "s1", attributes := [] } [] =
      { response := { template := .send_notification invalidFileTypeNotification
                      status_code := 415 }
        session := { id := "s1", attributes := [] }
        fs := [] }) ∧
    ((upload { content_type := "audio/flac", content := [1, 2] } "rid" "uploads"
        true { id := "s1", attributes := [] } []).response =
      { template := .upload_audio
          { id := "rid"
            file_path := pathJoin (pathJoin "uploads" "s1") ("rid" ++ ".ogg")
            transcription := none }
        status_code := 303 } ∧
      (upload { content_type := "audio/flac", content := [1, 2] } "rid" "uploads"
        true { id := "s1", attributes := [] } []).fs =
        [] ++ [(pathJoin (pathJoin "uploads" "s1") ("rid" ++ ".ogg"), [1, 2])] ∧
      assocLookup
        (sessionRecordings
          (upload { content_type := "audio/flac", content := [1, 2] } "rid" "uploads"
            true { id := "s1", attributes := [] } []).session) "rid" =
        some { id := "rid"
               file_path := pathJoin (pathJoin "uploads" "s1") ("rid" ++ ".ogg")
               transcription := none }) :=
  ⟨(upload_validates_and_registers { content_type := "application/pdf", content := [1, 2] }
      "rid" "uploads" true { id := "s1", attributes := [] } []).1 (by decide),
   (upload_validates_and_registers { content_type := "audio/flac", content := [1, 2] }
      "rid" "uploads" true { id := "s1", attributes := [] } []).2 (by decide) rfl⟩

/-- C8: every accepted upload is persisted under
`<upload-root>/<session-id>/<file_id>.ogg`; the `.ogg` extension is the
constant of `pages.py` line 275, independent of the declared media
type. -/
theorem upload_persists_under_ogg_path (audio_file : UploadedFile)
    (file_id uploadPath : String) (s : Session) (fs : List (String × List Nat))
    (hmime : audio_file.content_type ∈ allowed_mime_types) :
    (upload audio_file file_id uploadPath true s fs).fs =
      fs ++ [(pathJoin (pathJoin uploadPath s.id) (file_id ++ ".ogg"),
              audio_file.content)] := by
  unfold upload
  rw [if_neg (fun hn => hn hmime)]
  simp only [eq_self_iff_true, if_true]

/-- Witness for the C8 theorem: an `audio/mpeg` upload is still stored
with the `.ogg` extension. -/
theorem upload_persists_under_ogg_path_witness :
    (upload { content_type := "audio/mpeg", content := [9] } "rid" "uploads"
        true { id := "s1", attributes := [] } []).fs =
      [(pathJoin (pathJoin "uploads" "s1") ("rid" ++ ".ogg"), [9])] :=
  upload_persists_under_ogg_path { content_type := "audio/mpeg", content := [9] }
    "rid" "uploads" { id := "s1", attributes := [] } [] (by decide)

/-- If some target's translation fails, the whole dict comprehension
raises (with the error of the first failing target). -/
theorem translateAll_error_of_mem (translate : String → Except TranslateError String)
    (ts : List String) (t : String) (hmem : t ∈ ts) (e : TranslateError)
    (he : translate t = .error e) :
    ∃ e', translateAll translate ts = .error e' := by
  induction ts with
  | nil => cases hmem
  | cons hd tl ih =>
    rcases List.mem_cons.mp hmem with rfl | hmem'
    · exact ⟨e, by unfold translateAll; rw [he]⟩
    · cases h1 : translate hd with
      | error e1 => exact ⟨e1, by unfold translateAll; rw [h1]⟩
      | ok v =>
        obtain ⟨e', he'⟩ := ih hmem'
        exact ⟨e', by unfold translateAll; rw [h1, he']⟩

/-- If the dict comprehension completes, every target's translation
succeeded. -/
theorem translateAll_ok_all (translate : String → Except TranslateError String)
    (ts : List String) (l : List (String × String))
    (h : translateAll translate ts = .ok l) :
    ∀ t ∈ ts, ∃ v, translate t = .ok v := by
  induction ts generalizing l with
  | nil =>
    intro t ht
    cases ht
  | cons hd tl ih =>
    intro t ht
    unfold translateAll at h
    cases h1 : translate hd with
    | error e =>
      rw [h1] at h
      cases h
    | ok v =>
      rw [h1] at h
      cases h2 : translateAll translate tl with
      | error e =>
        rw [h2] at h
        cases h
      | ok rest =>
        rcases List.mem_cons.mp ht with rfl | ht'
        · exact ⟨v, h1⟩
        · exact ih rest h2 t ht'

/-- C3: if translating any single target language fails with the
translation-specific error, `publish` invokes the posting client zero
times and responds with an error notification; and whenever the
posting client is invoked at all, every target translation
succeeded. -/
theorem publish_all_or_nothing (fm : String) (post_image : Option Image)
    (pin notify : Bool) (sourceLang : String) (targets : List String)
    (translate : String → String → Except TranslateError String)
    (clientOutcome : ClientPublishOutcome) :
    ((∃ t ∈ targets, translate (pyStrip fm) t = .error .translationException) →
      (publish fm post_image pin notify sourceLang targets translate
          clientOutcome).calls = [] ∧
      ∃ n, (publish fm post_image pin notify sourceLang targets translate
          clientOutcome).response =
          { template := .send_notification n, status_code := 500 } ∧
        n.type = .error) ∧
    ((publish fm post_image pin notify sourceLang targets translate
        clientOutcome).calls ≠ [] →
      ∀ t ∈ targets, ∃ v, translate (pyStrip fm) t = .ok v) := by
  constructor
  · rintro ⟨t, hmem, he⟩
    obtain ⟨e', he'⟩ :=
      translateAll_error_of_mem (translate (pyStrip fm)) targets t hmem _ he
    unfold publish
    dsimp only
    rw [he']
    cases e' with
    | translationException =>
      exact ⟨rfl, translationErrorNotification, rfl, rfl⟩
    | otherError m =>
      exact ⟨rfl, unknownErrorNotification, rfl, rfl⟩
  · intro hcalls
    cases htr : translateAll (translate (pyStrip fm)) targets with
    | error e =>
      exfalso
      apply hcalls
      unfold publish
      dsimp only
      rw [htr]
      cases e with
      | translationException => rfl
      | otherError m => rfl
    | ok l => exact translateAll_ok_all (translate (pyStrip fm)) targets l htr

/-- A Translator failing on target `"fr"` and succeeding elsewhere, for
the C3 witness (the spec's own scenario with targets `es` and `fr`). -/
def frFailingTranslate (message target : String) : Except TranslateError String :=
  if target = "fr" then .error .translationException
  else .ok (message ++ ":" ++ target)

/-- Witness for the C3 theorem: with targets `es` and `fr` and a
Translator failing on `fr`, publish makes zero posting-client calls and
returns an error notification. -/
theorem publish_all_or_nothing_witness :
    (publish "hello" (some { size := 3 }) false false "en" ["es", "fr"]
        frFailingTranslate .ok).calls = [] ∧
    ∃ n, (publish "hello" (some { size := 3 }) false false "en" ["es", "fr"]
        frFailingTranslate .ok).response =
        { template := .send_notification n, status_code := 500 } ∧
      n.type = .error :=
  (publish_all_or_nothing "hello" (some { size := 3 }) false false "en"
    ["es", "fr"] frFailingTranslate .ok).1 ⟨"fr", by decide, rfl⟩

/-- Every posting-client call made by `publish` received the uploaded
image after the zero-size replacement of lines 388-389. -/
theorem publish_call_image (fm : String) (post_image : Option Image)
    (pin notify : Bool) (sourceLang : String) (targets : List String)
    (translate : String → String → Except TranslateError String)
    (clientOutcome : ClientPublishOutcome) (c : PublishCall)
    (hc : c ∈ (publish fm post_image pin notify sourceLang targets translate
        clientOutcome).calls) :
    ∃ img, post_image = some img ∧
      c.image = (if img.size = 0 then none else some img) := by
  unfold publish at hc
  dsimp only at hc
  cases htr : translateAll (translate (pyStrip fm)) targets with
  | error e =>
    rw [htr] at hc
    cases e with
    | translationException => exact absurd hc (List.not_mem_nil c)
    | otherError m => exact absurd hc (List.not_mem_nil c)
  | ok l =>
    rw [htr] at hc
    dsimp only at hc
    cases post_image with
    | none => exact absurd hc (List.not_mem_nil c)
    | some img =>
      refine ⟨img, rfl, ?_⟩
      cases clientOutcome <;>
        · rw [List.mem_singleton] at hc
          rw [hc]

/-- C10: an image attachment of size zero is replaced by `None` before
the posting client is invoked, so every posting-client invocation
carries either no image or an image of nonzero size. -/
theorem publish_zero_size_image_dropped (fm : String) (post_image : Option Image)
    (pin notify : Bool) (sourceLang : String) (targets : List String)
    (translate : String → String → Except TranslateError String)
    (clientOutcome : ClientPublishOutcome) :
    (∀ img, post_image = some img → img.size = 0 →
      ∀ c ∈ (publish fm post_image pin notify sourceLang targets translate
          clientOutcome).calls, c.image = none) ∧
    (∀ c ∈ (publish fm post_image pin notify sourceLang targets translate
        clientOutcome).calls,
      c.image = none ∨ ∃ img, c.image = some img ∧ img.size ≠ 0) := by
  constructor
  · intro img himg hsz c hc
    obtain ⟨img', himg', hcimg⟩ :=
      publish_call_image fm post_image pin notify sourceLang targets translate
        clientOutcome c hc
    rw [himg] at himg'
    cases himg'
    rw [hcimg, if_pos hsz]
  · intro c hc
    obtain ⟨img, _, hcimg⟩ :=
      publish_call_image fm post_image pin notify sourceLang targets translate
        clientOutcome c hc
    by_cases hzs : img.size = 0
    · exact Or.inl (by rw [hcimg, if_pos hzs])
    · exact Or.inr ⟨img, by rw [hcimg, if_neg hzs], hzs⟩

/-- Witness for the C10 theorem: a size-zero image is dropped, so the
single posting-client call of a successful publish carries no image. -/
theorem publish_zero_size_image_dropped_witness :
    ({ messages := [("en", "hi")], image := none, pin := false, notify := false } :
        PublishCall).image = none :=
  (publish_zero_size_image_dropped "hi" (some { size := 0 }) false false "en" []
    (fun _ t => .ok t) .ok).1 { size := 0 } rfl rfl
    { messages := [("en", "hi")], image := none, pin := false, notify := false }
    (by decide)

/-- C7 counterexample: the streaming transcription generator catches
only `RuntimeError`.  On a connected request whose transcription call
raises any other exception, the exception propagates out of the
generator — no event and no error-notification payload is produced —
refuting the claim that every handler, the generator included, degrades
unexpected errors to a generic error notification. -/
theorem generator_unexpected_error_escapes :
    transcription_event_generator false (.otherError "boom")
      { id := "r1", file_path := "up/s1/r1.ogg", transcription := none } =
      .error "boom" := rfl

/-- C7 amended: the publish and upload handlers degrade an unexpected
error to a well-formed generic error-notification response — for
publish at each of its three unexpected-error sites (an unexpected
error raised inside the translation comprehension, the
`AttributeError` from `post_image.size` when no image object is
present, and an unexpected error raised by `client.publish`), and for
upload at its disk-write site (then persisting and registering
nothing); the streaming transcription generator handles only the
recoverable `RuntimeError`, producing its failure event for it, while
any other exception propagates out of the generator unhandled. -/
theorem unexpected_error_degrades_except_generator (fm : String) (img : Image)
    (pin notify : Bool) (sourceLang m : String) (targets : List String)
    (translate : String → String → Except TranslateError String)
    (l : List (String × String)) (post_image : Option Image)
    (clientOutcome : ClientPublishOutcome)
    (audio_file : UploadedFile) (file_id uploadPath : String) (s : Session)
    (fs : List (String × List Nat))
    (hmime : audio_file.content_type ∈ allowed_mime_types)
    (rec : Recording) :
    (translateAll (translate (pyStrip fm)) targets = .error (.otherError m) →
      (publish fm post_image pin notify sourceLang targets translate
          clientOutcome).response =
        { template := .send_notification unknownErrorNotification
          status_code := 500 } ∧
      (publish fm post_image pin notify sourceLang targets translate
          clientOutcome).calls = []) ∧
    (translateAll (translate (pyStrip fm)) targets = .ok l →
      (publish fm none pin notify sourceLang targets translate
          clientOutcome).response =
        { template := .send_notification unknownErrorNotification
          status_code := 500 } ∧
      (publish fm none pin notify sourceLang targets translate
          clientOutcome).calls = []) ∧
    (translateAll (translate (pyStrip fm)) targets = .ok l →
      (publish fm (some img) pin notify sourceLang targets translate
          (.otherError m)).response =
        { template := .send_notification unknownErrorNotification
          status_code := 500 }) ∧
    (upload audio_file file_id uploadPath false s fs).response =
      { template := .send_notification uploadErrorNotification
        status_code := 500 } ∧
    (upload audio_file file_id uploadPath false s fs).session = s ∧
    (upload audio_file file_id uploadPath false s fs).fs = fs ∧
    transcription_event_generator false (.runtimeError m) rec =
      .ok ([{ event := "message",
              data := .send_notification transcribeErrorNotification }], rec) ∧
    transcription_event_generator false (.otherError m) rec = .error m := by
  refine ⟨?_, ?_, ?_, ?_, ?_, ?_, rfl, rfl⟩
  · intro htr
    unfold publish
    dsimp only
    rw [htr]
    exact ⟨rfl, rfl⟩
  · intro htr
    unfold publish
    dsimp only
    rw [htr]
    exact ⟨rfl, rfl⟩
  · intro htr
    unfold publish
    dsimp only
    rw [htr]
  · unfold upload
    rw [if_neg (fun hn => hn hmime)]
    exact rfl
  · unfold upload
    rw [if_neg (fun hn => hn hmime)]
    exact rfl
  · unfold upload
    rw [if_neg (fun hn => hn hmime)]
    exact rfl

/-- Witness for the amended C7 theorem at concrete inputs: a Translator
raising an unexpected error on `de`, a publish with no image object
after successful translations, a posting client raising an unexpected
error, an `audio/ogg` upload whose disk write fails, and a
recording. -/
theorem unexpected_error_degrades_except_generator_witness :
    ((publish "hi" (some { size := 2 }) false false "en" ["de"]
        (fun _ _ => .error (.otherError "boom")) .ok).response =
      { template := .send_notification unknownErrorNotification
        status_code := 500 } ∧
     (publish "hi" (some { size := 2 }) false false "en" ["de"]
        (fun _ _ => .error (.otherError "boom")) .ok).calls = []) ∧
    ((publish "hi" none false false "en" [] (fun _ t => .ok t) .ok).response =
      { template := .send_notification unknownErrorNotification
        status_code := 500 } ∧
     (publish "hi" none false false "en" [] (fun _ t => .ok t) .ok).calls = []) ∧
    ((publish "hi" (some { size := 2 }) false false "en" [] (fun _ t => .ok t)
        (.otherError "boom")).response =
      { template := .send_notification unknownErrorNotification
        status_code := 500 }) ∧
    (upload { content_type := "audio/ogg", content := [4] } "rid" "uploads" false
        { id := "s1", attributes := [] } []).response =
      { template := .send_notification uploadErrorNotification
        status_code := 500 } ∧
    (upload { content_type := "audio/ogg", content := [4] } "rid" "uploads" false
        { id := "s1", attributes := [] } []).session =
      { id := "s1", attributes := [] } ∧
    (upload { content_type := "audio/ogg", content := [4] } "rid" "uploads" false
        { id := "s1", attributes := [] } []).fs = [] ∧
    transcription_event_generator false (.runtimeError "boom")
      { id := "r1", file_path := "p", transcription := none } =
      .ok ([{ event := "message",
              data := .send_notification transcribeErrorNotification }],
           { id := "r1", file_path := "p", transcription := none }) ∧
    transcription_event_generator false (.otherError "boom")
      { id := "r1", file_path := "p", transcription := none } = .error "boom" :=
  ⟨(unexpected_error_degrades_except_generator "hi" { size := 2 } false false "en"
      "boom" ["de"] (fun _ _ => .error (.otherError "boom")) [] (some { size := 2 })
      .ok { content_type := "audio/ogg", content := [4] } "rid" "uploads"
      { id := "s1", attributes := [] } [] (by decide)
      { id := "r1", file_path := "p", transcription := none }).1 rfl,
   (unexpected_error_degrades_except_generator "hi" { size := 2 } false false "en"
      "boom" [] (fun _ t => .ok t) [] none
      .ok { content_type := "audio/ogg", content := [4] } "rid" "uploads"
      { id := "s1", attributes := [] } [] (by decide)
      { id := "r1", file_path := "p", transcription := none }).2.1 rfl,
   (unexpected_error_degrades_except_generator "hi" { size := 2 } false false "en"
      "boom" [] (fun _ t => .ok t) [] none
      .ok { content_type := "audio/ogg", content := [4] } "rid" "uploads"
      { id := "s1", attributes := [] } [] (by decide)
      { id := "r1", file_path := "p", transcription := none }).2.2.1 rfl,
   (unexpected_error_degrades_except_generator "hi" { size := 2 } false false "en"
      "boom" [] (fun _ t => .ok t) [] none
      .ok { content_type := "audio/ogg", content := [4] } "rid" "uploads"
      { id := "s1", attributes := [] } [] (by decide)
      { id := "r1", file_path := "p", transcription := none }).2.2.2.1,
   (unexpected_error_degrades_except_generator "hi" { size := 2 } false false "en"
      "boom" [] (fun _ t => .ok t) [] none
      .ok { content_type := "audio/ogg", content := [4] } "rid" "uploads"
      { id := "s1", attributes := [] } [] (by decide)
      { id := "r1", file_path := "p", transcription := none }).2.2.2.2.1,
   (unexpected_error_degrades_except_generator "hi" { size := 2 } false false "en"
      "boom" [] (fun _ t => .ok t) [] none
      .ok { content_type := "audio/ogg", content := [4] } "rid" "uploads"
      { id := "s1", attributes := [] } [] (by decide)
      { id := "r1", file_path := "p", transcription := none }).2.2.2.2.2.1,
   (unexpected_error_degrades_except_generator "hi" { size := 2 } false false "en"
      "boom" [] (fun _ t => .ok t) [] none
      .ok { content_type := "audio/ogg", content := [4] } "rid" "uploads"
      { id := "s1", attributes := [] } [] (by decide)
      { id := "r1", file_path := "p", transcription := none }).2.2.2.2.2.2.1,
   (unexpected_error_degrades_except_generator "hi" { size := 2 } false false "en"
      "boom" [] (fun _ t => .ok t) [] none
      .ok { content_type := "audio/ogg", content := [4] } "rid" "uploads"
      { id := "s1", attributes := [] } [] (by decide)
      { id := "r1", file_path := "p", transcription := none }).2.2.2.2.2.2.2⟩

end Scribe
